import Mathlib

/-!
Verification development for the IFS-assistant conversation/retrieval core.

Shallow embedding of:
- `backend/app/utils/embeddings.py`   (EmbeddingManager)
- `backend/app/utils/llm_service.py`  (LLMService)
- `backend/app/utils/db_adapter.py`   (DBAdapter.query_vector_similarity)
- `backend/app/api/conversations.py`  (add_message, generate_personality_vectors,
                                       search_conversations, find_similar_messages)

Python conventions used throughout the embedding:
- a raised exception is modelled as `Except.error msg`;
- floating-point numbers are modelled as rationals `Rat`;
- process-level module availability flags (TRANSFORMERS_AVAILABLE,
  REQUESTS_AVAILABLE, EMBEDDINGS_AVAILABLE, LLM_AVAILABLE) are Boolean
  parameters;
- the database session is modelled as explicit list-valued state passed
  in and out of each endpoint function.
-/

namespace IFS

/-! ### EmbeddingManager (`backend/app/utils/embeddings.py`) -/

/-- `EmbeddingManager.__init__`: model name and embedding dimension
(384, the output width of all-MiniLM-L6-v2). -/
structure EmbeddingManager where
  model_name : String
  embedding_dim : Nat

/-- The singleton `embedding_manager = EmbeddingManager()`. -/
def embedding_manager : EmbeddingManager :=
  { model_name := "all-MiniLM-L6-v2", embedding_dim := 384 }

/-- Environment of the lazy-loaded sentence-transformer encoder:
the library may be missing (`TRANSFORMERS_AVAILABLE = False`), the
`SentenceTransformer(...)` constructor may raise, or the model is loaded
and `model.encode` behaves as the given function (which itself may raise). -/
inductive EncoderEnv where
  | libMissing : EncoderEnv
  | loadFailed (msg : String) : EncoderEnv
  | loaded (encode : String → Except String (List Rat)) : EncoderEnv

/-- `EmbeddingManager.generate_embedding`.

Source behaviour: if the sentence-transformers library is not available it
logs a warning and returns `[0.0] * self.embedding_dim` (an all-zero
vector); otherwise it calls `self.model.encode(text)` inside a
`try`/`except` and re-raises any failure (including a model-load failure,
whose message gets wrapped) as `RuntimeError("Error generating embedding: ...")`. -/
def generate_embedding (em : EmbeddingManager) (env : EncoderEnv) (text : String) :
    Except String (List Rat) :=
  match env with
  | .libMissing => .ok (List.replicate em.embedding_dim 0)
  | .loadFailed msg =>
      .error ("Error generating embedding: Failed to load embedding model: " ++ msg)
  | .loaded encode =>
      match encode text with
      | .ok v => .ok v
      | .error msg => .error ("Error generating embedding: " ++ msg)

/-- `EmbeddingManager.generate_embeddings` (batch form): a missing library
yields one all-zero vector per input text; an encode failure raises
`RuntimeError("Error generating embeddings: ...")`. -/
def generate_embeddings (em : EmbeddingManager) (env : EncoderEnv) (texts : List String) :
    Except String (List (List Rat)) :=
  match env with
  | .libMissing => .ok (texts.map fun _ => List.replicate em.embedding_dim 0)
  | .loadFailed msg =>
      .error ("Error generating embeddings: Failed to load embedding model: " ++ msg)
  | .loaded encode =>
      match texts.mapM encode with
      | .ok vs => .ok vs
      | .error msg => .error ("Error generating embeddings: " ++ msg)

/-! ### LLMService (`backend/app/utils/llm_service.py`) -/

/-- JSON values, as returned by `response.json()` from the Hugging Face
inference API.  This is the value space the payload-handling code of
`LLMService.generate_response` branches on. -/
inductive JVal where
  | jstr (s : String) : JVal
  | jnum (n : Int) : JVal
  | jbool (b : Bool) : JVal
  | jnull : JVal
  | jarr (items : List JVal) : JVal
  | jobj (fields : List (String × JVal)) : JVal

mutual

/-- Python `repr` of a parsed-JSON value (used by `str` inside containers). -/
def pyRepr : JVal → String
  | .jstr s => "\x27" ++ s ++ "\x27"
  | .jnum n => toString n
  | .jbool b => if b then "True" else "False"
  | .jnull => "None"
  | .jarr xs => "[" ++ pyReprList xs ++ "]"
  | .jobj fs => "\x7b" ++ pyReprFields fs ++ "\x7d"

/-- Comma-separated `repr` rendering of list elements. -/
def pyReprList : List JVal → String
  | [] => ""
  | [x] => pyRepr x
  | x :: y :: xs => pyRepr x ++ ", " ++ pyReprList (y :: xs)

/-- Comma-separated `repr` rendering of dict entries. -/
def pyReprFields : List (String × JVal) → String
  | [] => ""
  | [(k, v)] => "\x27" ++ k ++ "\x27: " ++ pyRepr v
  | (k, v) :: f :: fs => "\x27" ++ k ++ "\x27: " ++ pyRepr v ++ ", " ++ pyReprFields (f :: fs)

end

/-- Python `str` of a parsed-JSON value: a top-level string renders as
itself, every other value as its `repr`. -/
def pyStr : JVal → String
  | .jstr s => s
  | v => pyRepr v

/-- Substring test on character lists (Python `needle in haystack` for
strings; the empty needle is contained in everything). -/
def listContainsSub (needle : List Char) : List Char → Bool
  | [] => needle.isEmpty
  | c :: rest => needle.isPrefixOf (c :: rest) || listContainsSub needle rest

/-- Python `==` between a parsed-JSON value and a string: true only for
an equal string (values of other types compare unequal, without error). -/
def jvalEqStr (v : JVal) (s : String) : Bool :=
  match v with
  | .jstr t => t == s
  | _ => false

/-- Python `key in value`.  Raises `TypeError` on non-container values;
on a string it is a substring test, on a list an element test, on a dict
a key test. -/
def pyContains (key : String) : JVal → Except String Bool
  | .jobj fs => .ok (fs.any (fun f => f.1 == key))
  | .jstr s => .ok (listContainsSub key.data s.data)
  | .jarr xs => .ok (xs.any (fun x => jvalEqStr x key))
  | _ => .error ("TypeError: argument of type is not iterable")

/-- Python `value[key]` with a string key.  Only dicts support it; a
missing key raises `KeyError`, other types raise `TypeError`. -/
def pyIndex (v : JVal) (key : String) : Except String JVal :=
  match v with
  | .jobj fs =>
      match fs.find? (fun f => f.1 == key) with
      | some f => .ok f.2
      | none => .error ("KeyError: " ++ key)
  | .jstr _ => .error "TypeError: string indices must be integers"
  | .jarr _ => .error "TypeError: list indices must be integers"
  | _ => .error "TypeError: object is not subscriptable"

/-- The payload-handling tail of `LLMService.generate_response` (the
`# Handle different response formats` block).  A returned JSON value is
rendered with `pyStr`; Python would return the raw object for a
non-string `generated_text` field, which the HTTP layer then serialises
— the distinction does not affect any claim below.  Errors raised here
are caught by the surrounding `except` clause. -/
def handle_response_formats (result : JVal) : Except String String :=
  match result with
  | .jarr (first :: _) =>
      match pyContains "generated_text" first with
      | .error msg => .error msg
      | .ok true =>
          match pyIndex first "generated_text" with
          | .ok v => .ok (pyStr v)
          | .error msg => .error msg
      | .ok false => .ok (pyStr first)
  | .jobj fs =>
      if fs.any (fun f => f.1 == "generated_text") then
        match pyIndex (.jobj fs) "generated_text" with
        | .ok v => .ok (pyStr v)
        | .error msg => .error msg
      else .ok (pyStr (.jobj fs))
  | v => .ok (pyStr v)

/-- Outcome of the `requests.post` call to the inference API: either the
call raises (transport error), or an HTTP response arrives with a status
code and a body whose JSON parse (`response.json()`) may itself raise. -/
inductive ApiOutcome where
  | transportError (msg : String) : ApiOutcome
  | response (status : Nat) (body : Except String JVal) : ApiOutcome

/-- `LLMService.generate_response`.

Source behaviour: without the requests library return a fixed error
string; otherwise post the prompt, return a status-code error string on
non-200, parse the JSON body and dispatch on its shape; any exception in
the `try` block is caught and rendered as `"Error: {e}"`. -/
def generate_response (requests_available : Bool) (api : ApiOutcome) (_prompt : String) :
    String :=
  if !requests_available then
    "Error: requests library not available for API calls"
  else
    match api with
    | .transportError msg => "Error: " ++ msg
    | .response status body =>
        if status ≠ 200 then
          "Error: Failed to generate response (Status code: " ++ toString status ++ ")"
        else
          match body with
          | .error msg => "Error: " ++ msg
          | .ok result =>
              match handle_response_formats result with
              | .ok s => s
              | .error msg => "Error: " ++ msg

/-- A part dictionary as produced by `Part.to_dict()` (the shape every
in-repo caller passes to `LLMService`): all keys present; `role` and
`description` are nullable columns, the four characteristic lists are
JSON lists. -/
structure PartDict where
  name : String
  role : Option String
  description : Option String
  feelings : List String
  beliefs : List String
  triggers : List String
  needs : List String

/-- Python f-string rendering of a possibly-`None` value. -/
def pyOptStr : Option String → String
  | some s => s
  | none => "None"

/-- A message dictionary as produced by `ConversationMessage.to_dict()`:
the fields `create_part_prompt` reads. -/
structure MsgDict where
  role : String
  content : String

/-- The base system-message lines of `LLMService.create_part_prompt`:
the role-play framing sentence and the unconditional `Role:` and
`Description:` lines. -/
def base_description (part : PartDict) : List String :=
  [ "You are roleplaying as " ++
      (part.name ++
        ", which is an internal part of a person according to Internal Family Systems therapy."),
    "Role: " ++ pyOptStr part.role,
    "Description: " ++ pyOptStr part.description ]

/-- The conditional characteristic lines of `create_part_prompt`: each of
feelings, beliefs, triggers, needs is appended only when the list is
truthy (non-empty). -/
def characteristic_lines (part : PartDict) : List String :=
  (if part.feelings.isEmpty then [] else
    ["Feelings: " ++ String.intercalate ", " part.feelings]) ++
  (if part.beliefs.isEmpty then [] else
    ["Beliefs: " ++ String.intercalate ", " part.beliefs]) ++
  (if part.triggers.isEmpty then [] else
    ["Triggers: " ++ String.intercalate ", " part.triggers]) ++
  (if part.needs.isEmpty then [] else
    ["Needs: " ++ String.intercalate ", " part.needs])

/-- The fixed behavioural/safety guideline lines of `create_part_prompt`. -/
def guideline_lines : List String :=
  [ "",
    "Guidelines:",
    "1. Respond as if you are this part, using first-person perspective.",
    "2. Stay true to the part\x27s feelings, beliefs, and characteristics.",
    "3. Express the part\x27s needs and concerns authentically.",
    "4. Avoid being judgmental or harmful.",
    "5. Keep responses concise and focused.",
    "",
    "Safety guidelines:",
    "1. If the conversation becomes harmful or inappropriate, gently redirect.",
    "2. Do not provide dangerous advice or encourage harmful behavior.",
    "3. Remember this is for self-exploration and understanding, not therapy.",
    "" ]

/-- The full `part_description` line list assembled by `create_part_prompt`. -/
def part_description (part : PartDict) : List String :=
  base_description part ++ characteristic_lines part ++ guideline_lines

/-- The `conversation_text` line list of `create_part_prompt`: history
turns rendered as `"{speaker}: {content}"`, then (when the new user
message is truthy) the new user line and an open line for the part. -/
def conversation_text (part : PartDict) (history : List MsgDict) (user_message : String) :
    List String :=
  (history.map fun m =>
    (if m.role == "user" then "User" else part.name) ++ ": " ++ m.content) ++
  (if user_message == "" then [] else
    ["User: " ++ user_message, part.name ++ ": "])

/-- `LLMService.create_part_prompt`: system message and conversation text
joined with newlines. -/
def create_part_prompt (part : PartDict) (history : List MsgDict) (user_message : String) :
    String :=
  String.intercalate "\n" (part_description part) ++ "\n\n" ++
    String.intercalate "\n" (conversation_text part history user_message)

/-- `LLMService.chat_with_part`: without the requests library return the
fixed error string, otherwise build the prompt and call
`generate_response`. -/
def chat_with_part (requests_available : Bool) (api : ApiOutcome) (part : PartDict)
    (history : List MsgDict) (user_message : String) : String :=
  if !requests_available then
    "Error: requests library not available for API calls"
  else
    generate_response requests_available api (create_part_prompt part history user_message)

/-! ### Conversation endpoints (`backend/app/api/conversations.py`)

The authenticated user, part lookup and ownership check are performed
before the behaviour the claims are about; the endpoint functions below
therefore take the resolved conversation id and part dictionary as
inputs.  The message table is the list of `ConversationMessage` rows in
timestamp (insertion) order. -/

/-- A `ConversationMessage` row: conversation foreign key, role string,
content, and the optional pgvector embedding column. -/
structure MessageRec where
  conversation_id : String
  role : String
  content : String
  embedding : Option (List Rat)
deriving DecidableEq

/-- The embedding-attach step of `add_message`: when the embedding
manager imported (`EMBEDDINGS_AVAILABLE`), call
`embedding_manager.generate_embedding` in a `try`/`except` and continue
without an embedding on failure. -/
def attach_embedding (embeddings_available : Bool) (env : EncoderEnv) (text : String) :
    Option (List Rat) :=
  if embeddings_available then
    match generate_embedding embedding_manager env text with
    | .ok v => some v
    | .error _ => none
  else none

/-- `MessageRec.to_dict()` restricted to the fields `create_part_prompt`
reads. -/
def msgToDict (m : MessageRec) : MsgDict :=
  { role := m.role, content := m.content }

/-- The fallback reply text used when the LLM service module failed to
import. -/
def chat_unavailable_text : String :=
  "I cannot respond right now. The chat service is unavailable."

/-- Result of the `add_message` endpoint: a 201 with both persisted
messages, or a 400 validation error. -/
inductive AddMessageResult where
  | created (user_message part_response : MessageRec) : AddMessageResult
  | badRequest (msg : String) : AddMessageResult
deriving DecidableEq

/-- `add_message` (POST `/conversations/<id>/messages`).

Source behaviour: reject a falsy (empty) message with a 400; persist the
user message with a best-effort embedding; load the last 10 messages of
the conversation oldest-first as history; if the LLM module imported,
generate the reply via `chat_with_part` (the fallback text is used when
it did not); persist the reply as a message with role `"part"` and a
best-effort embedding; return both messages.  `chat_with_part` is total
in this embedding, so the `except` branch around it
(`"I'm sorry, I couldn't process your message: ..."`) is unreachable. -/
def add_message (embeddings_available llm_available requests_available : Bool)
    (env : EncoderEnv) (api : ApiOutcome) (part : PartDict) (cid : String)
    (db : List MessageRec) (content : String) : AddMessageResult × List MessageRec :=
  if content == "" then
    (.badRequest "Message cannot be empty", db)
  else
    let user_message : MessageRec :=
      { conversation_id := cid, role := "user", content := content,
        embedding := attach_embedding embeddings_available env content }
    let db1 := db ++ [user_message]
    let history :=
      ((db1.filter (fun m => m.conversation_id == cid)).reverse.take 10).reverse
    let part_response :=
      if llm_available then
        chat_with_part requests_available api part (history.map msgToDict) content
      else chat_unavailable_text
    let part_message : MessageRec :=
      { conversation_id := cid, role := "part", content := part_response,
        embedding := attach_embedding embeddings_available env part_response }
    (.created user_message part_message, db1 ++ [part_message])

/-! ### Personality vectors (`generate_personality_vectors`) -/

/-- The combined attribute text built by
`EmbeddingManager.get_part_embedding` from the part dictionary. -/
def part_text (part : PartDict) : String :=
  String.intercalate " "
    ([ "Name: " ++ part.name,
       "Role: " ++ pyOptStr part.role,
       "Description: " ++ pyOptStr part.description ] ++
     (if part.feelings.isEmpty then [] else
       ["Feelings: " ++ String.intercalate ", " part.feelings]) ++
     (if part.beliefs.isEmpty then [] else
       ["Beliefs: " ++ String.intercalate ", " part.beliefs]) ++
     (if part.triggers.isEmpty then [] else
       ["Triggers: " ++ String.intercalate ", " part.triggers]) ++
     (if part.needs.isEmpty then [] else
       ["Needs: " ++ String.intercalate ", " part.needs]))

/-- `EmbeddingManager.get_part_embedding`: without the encoder library
return the all-zero vector, otherwise embed the combined attribute text. -/
def get_part_embedding (em : EmbeddingManager) (env : EncoderEnv) (part : PartDict) :
    Except String (List Rat) :=
  match env with
  | .libMissing => .ok (List.replicate em.embedding_dim 0)
  | _ => generate_embedding em env (part_text part)

/-- A `PartPersonalityVector` row: part foreign key, aspect key, and
embedding. -/
structure PersonalityVectorRow where
  part_id : String
  aspect : String
  embedding : List Rat
deriving DecidableEq

/-- Whether a row is the personality vector of the given part (the
`filter_by(part_id=..., aspect="personality")` predicate). -/
def isPersonalityRow (pid : String) (r : PersonalityVectorRow) : Bool :=
  r.part_id == pid && r.aspect == "personality"

/-- In-place update of the first row matching the
`(part_id, "personality")` key (`.first()` followed by attribute
assignment and commit). -/
def update_first_personality (pid : String) (emb : List Rat) :
    List PersonalityVectorRow → List PersonalityVectorRow
  | [] => []
  | r :: rs =>
      if isPersonalityRow pid r then { r with embedding := emb } :: rs
      else r :: update_first_personality pid emb rs

/-- Response essence of the `generate_personality_vectors` endpoint. -/
inductive PVResult where
  | success : PVResult
  | error (msg : String) : PVResult
deriving DecidableEq

/-- `generate_personality_vectors` (POST `/parts/<id>/personality-vectors`).

Source behaviour: 500 if the embedding module did not import; compute
one embedding for the whole part via `get_part_embedding`; if a row with
`(part_id, aspect="personality")` exists update its embedding in place,
otherwise insert one such row; on an embedding failure roll back and
return an error, leaving the table unchanged. -/
def generate_personality_vectors (em : EmbeddingManager) (env : EncoderEnv)
    (embeddings_available : Bool) (part : PartDict) (pid : String)
    (db : List PersonalityVectorRow) : PVResult × List PersonalityVectorRow :=
  if !embeddings_available then
    (.error "Embedding service is not available", db)
  else
    match get_part_embedding em env part with
    | .error e => (.error ("Failed to generate embeddings: " ++ e), db)
    | .ok emb =>
        if db.any (isPersonalityRow pid) then
          (.success, update_first_personality pid emb db)
        else
          (.success, db ++ [{ part_id := pid, aspect := "personality", embedding := emb }])

/-! ### Vector similarity queries
(`backend/app/utils/db_adapter.py` and the `vector_search` SQL function
generated by `setup_supabase_rls.py`)

The pgvector operator `<->` (Euclidean distance on vector columns) is
not exactly representable over the rationals; the embedding therefore
takes the distance operator as a parameter `dist`.  SQL
`ORDER BY d ASC` is modelled as a stable sort (`List.insertionSort`) by
the distance value, and `LIMIT n` as `List.take n`. -/

/-- A table row visible to a vector query: its (opaque) payload and its
nullable vector column. -/
structure VectorRow (α : Type) where
  payload : α
  embedding : Option (List Rat)
deriving DecidableEq

/-- A result record of a vector query: the SQL `SELECT *, ... AS distance`
adds a `distance` field to the record. -/
structure RankedRow (α : Type) where
  payload : α
  embedding : List Rat
  distance : Rat
deriving DecidableEq

/-- Comparison of result records by their `distance` field. -/
def distLE {α : Type} (a b : RankedRow α) : Prop :=
  a.distance ≤ b.distance

instance {α : Type} : DecidableRel (@distLE α) :=
  fun a b => inferInstanceAs (Decidable (a.distance ≤ b.distance))

instance {α : Type} : IsTotal (RankedRow α) distLE :=
  ⟨fun a b => le_total a.distance b.distance⟩

instance {α : Type} : IsTrans (RankedRow α) distLE :=
  ⟨fun _ _ _ hab hbc => le_trans hab hbc⟩

/-- The `WHERE {vector_column} IS NOT NULL` filter together with the
computed `{vector_column} <-> :query_vector AS distance` column. -/
def rank_rows {α : Type} (dist : List Rat → List Rat → Rat) (qv : List Rat)
    (rows : List (VectorRow α)) : List (RankedRow α) :=
  rows.filterMap fun r =>
    match r.embedding with
    | none => none
    | some e => some { payload := r.payload, embedding := e, distance := dist e qv }

/-- SQL `ORDER BY {vector_column} <-> :query_vector` (ascending). -/
def order_by_distance {α : Type} (l : List (RankedRow α)) : List (RankedRow α) :=
  List.insertionSort distLE l

/-- `DBAdapter.query_vector_similarity`, SQLAlchemy branch: the raw
distance-ordered pgvector query. -/
def query_vector_similarity_sqlalchemy {α : Type} (dist : List Rat → List Rat → Rat)
    (rows : List (VectorRow α)) (qv : List Rat) (limit : Nat) : List (RankedRow α) :=
  (order_by_distance (rank_rows dist qv rows)).take limit

/-- The server-side `vector_search` SQL function the Supabase branch
delegates to (generated by `setup_supabase_rls.py`): the same
distance-ordered query restricted to rows the authenticated user owns. -/
def vector_search {α : Type} (dist : List Rat → List Rat → Rat) (accessible : α → Bool)
    (rows : List (VectorRow α)) (qv : List Rat) (limit : Nat) : List (RankedRow α) :=
  (order_by_distance
    (rank_rows dist qv (rows.filter fun r => accessible r.payload))).take limit

/-- `DBAdapter.query_vector_similarity`: dispatch between the Supabase
RPC branch and the SQLAlchemy branch (chosen once at startup by
`SUPABASE_USE_FOR_DB`). -/
def query_vector_similarity {α : Type} (using_supabase : Bool)
    (dist : List Rat → List Rat → Rat) (accessible : α → Bool)
    (rows : List (VectorRow α)) (qv : List Rat) (limit : Nat) : List (RankedRow α) :=
  if using_supabase then vector_search dist accessible rows qv limit
  else query_vector_similarity_sqlalchemy dist rows qv limit

/-! ### `find_similar_messages` (POST `/conversations/similar-messages`) -/

/-- A row of the join `conversation_messages ⋈ part_conversations ⋈
parts ⋈ ifs_systems` as selected by the `find_similar_messages` SQL. -/
structure MsgJoinRow where
  id : String
  role : String
  content : String
  conversation_id : String
  part_id : String
  part_name : String
  user_id : String
  embedding : Option (List Rat)
deriving DecidableEq

/-- The ranked rows of the `find_similar_messages` query: rows owned by
the requesting user with a non-null embedding, ordered by ascending
distance to the query embedding, limited. -/
def find_similar_ranked (dist : List Rat → List Rat → Rat) (uid : String)
    (rows : List MsgJoinRow) (qv : List Rat) (limit : Nat) : List (RankedRow MsgJoinRow) :=
  (order_by_distance
    (rank_rows dist qv
      ((rows.filter fun r => r.user_id == uid).map fun r =>
        { payload := r, embedding := r.embedding }))).take limit

/-- A formatted result record of `find_similar_messages`. -/
structure SimilarMessage where
  id : String
  role : String
  content : String
  conversation_id : String
  part_id : String
  part_name : String
  similarity_score : Rat
deriving DecidableEq

/-- The result formatting of `find_similar_messages`:
`"similarity_score": 1.0 - float(row[6])` converts the distance of each
ranked row into a similarity score. -/
def format_similar_message (r : RankedRow MsgJoinRow) : SimilarMessage :=
  { id := r.payload.id, role := r.payload.role, content := r.payload.content,
    conversation_id := r.payload.conversation_id, part_id := r.payload.part_id,
    part_name := r.payload.part_name, similarity_score := 1 - r.distance }

/-- `find_similar_messages`: the ranked rows of the vector query, each
formatted with its distance converted to `1.0 - distance`. -/
def find_similar_messages (dist : List Rat → List Rat → Rat) (uid : String)
    (rows : List MsgJoinRow) (qv : List Rat) (limit : Nat) : List SimilarMessage :=
  (find_similar_ranked dist uid rows qv limit).map format_similar_message

/-! ### `search_conversations` (GET `/conversations/search`) -/

/-- SQL `LIKE`/`ILIKE` pattern matching on character lists: `%` matches
any (possibly empty) run, `_` matches one character, any other pattern
character matches case-insensitively (the `ILIKE` variant). -/
def likeMatch : List Char → List Char → Bool
  | [], s => s.isEmpty
  | p :: ps, s =>
    if p = '%' then
      match s with
      | [] => likeMatch ps []
      | _ :: s' => likeMatch ps s || likeMatch (p :: ps) s'
    else
      match s with
      | [] => false
      | c :: s' =>
        if p = '_' then likeMatch ps s'
        else (p.toLower == c.toLower) && likeMatch ps s'
termination_by p s => (p.length, s.length)

/-- `content ILIKE pattern` on strings. -/
def ilike (content pattern : String) : Bool :=
  likeMatch pattern.data content.data

/-- A `PartConversation` row joined with its part and owning system:
conversation id, part foreign key, and the owning user. -/
structure ConvRec where
  id : String
  part_id : String
  user_id : String
deriving DecidableEq

/-- The optional `part_id` query-parameter filter. -/
def matchesPartFilter (pf : Option String) (part_id : String) : Bool :=
  match pf with
  | none => true
  | some p => part_id == p

/-- Whether a message belongs to a conversation of the requesting user
that passes the part filter (the join/`WHERE` clauses shared by both
search branches). -/
def ownedMessage (uid : String) (pf : Option String) (convs : List ConvRec)
    (m : MessageRec) : Bool :=
  convs.any fun c =>
    c.id == m.conversation_id && c.user_id == uid && matchesPartFilter pf c.part_id

/-- The text branch of `search_conversations`: the distinct conversation
ids of accessible messages whose content matches `ILIKE %query%`,
limited.  SQL `DISTINCT` leaves the order unspecified; it is modelled as
first-occurrence order. -/
def text_search_conv_ids (uid query : String) (pf : Option String) (limit : Nat)
    (convs : List ConvRec) (msgs : List MessageRec) : List String :=
  (((msgs.filter fun m =>
      ownedMessage uid pf convs m && ilike m.content ("%" ++ query ++ "%")).map
    (fun m => m.conversation_id)).eraseDups).take limit

/-- Comparison of `(conversation_id, distance)` pairs by distance. -/
def sndLE (a b : String × Rat) : Prop :=
  a.2 ≤ b.2

instance : DecidableRel sndLE :=
  fun a b => inferInstanceAs (Decidable (a.2 ≤ b.2))

/-- The semantic branch of `search_conversations`: the `ranked_messages`
CTE keeps, per conversation, the closest accessible embedded message
(`ROW_NUMBER() ... ORDER BY distance` = 1, i.e. the minimum distance),
orders conversations by that distance ascending, limits, and re-fetches
the conversation records in result order. -/
def semantic_search_convs (dist : List Rat → List Rat → Rat) (uid : String)
    (qv : List Rat) (pf : Option String) (limit : Nat) (convs : List ConvRec)
    (msgs : List MessageRec) : List ConvRec :=
  let candidates : List (String × Rat) :=
    msgs.filterMap fun m =>
      match m.embedding with
      | some e =>
          if ownedMessage uid pf convs m then some (m.conversation_id, dist e qv)
          else none
      | none => none
  let ids := (candidates.map Prod.fst).eraseDups
  let best : List (String × Rat) :=
    ids.filterMap fun cid =>
      (((candidates.filter fun p => p.1 == cid).map Prod.snd).min?).map fun d => (cid, d)
  ((List.insertionSort sndLE best).take limit).filterMap fun p =>
    convs.find? fun c => c.id == p.1

/-- Response essence of the `search_conversations` endpoint. -/
inductive SearchOutcome where
  | ok (conversations : List ConvRec) : SearchOutcome
  | badRequest (msg : String) : SearchOutcome
  | serverError (msg : String) : SearchOutcome
deriving DecidableEq

/-- `search_conversations`.

Source behaviour: reject an empty query with a 400; when
`search_type == 'semantic'` **and** the embedding module imported, embed
the query and run the semantic CTE (a failure while embedding or
querying becomes a 500); in every other case — including a `'semantic'`
request while embeddings are unavailable — run the text branch and
return its conversations (in table order) with a 200. -/
def search_conversations (embeddings_available : Bool) (env : EncoderEnv)
    (dist : List Rat → List Rat → Rat) (uid : String) (search_type query : String)
    (pf : Option String) (limit : Nat) (convs : List ConvRec)
    (msgs : List MessageRec) : SearchOutcome :=
  if query == "" then .badRequest "Search query is required"
  else if search_type == "semantic" && embeddings_available then
    match generate_embedding embedding_manager env query with
    | .error e => .serverError ("Semantic search failed: " ++ e)
    | .ok qv => .ok (semantic_search_convs dist uid qv pf limit convs msgs)
  else
    .ok (convs.filter fun c =>
      (text_search_conv_ids uid query pf limit convs msgs).contains c.id)

/-! ### Concrete sample data for closed evaluations -/

/-- A sample part dictionary. -/
def part0 : PartDict :=
  { name := "Guardian", role := some "protector", description := some "keeps watch",
    feelings := ["vigilant"], beliefs := [], triggers := [], needs := [] }

/-- A sample part dictionary whose `role` attribute is present but empty. -/
def partEmptyRole : PartDict :=
  { name := "Guardian", role := some "", description := some "keeps watch",
    feelings := [], beliefs := [], triggers := [], needs := [] }

/-- A sample joined message row with an embedding. -/
def msgRow0 : MsgJoinRow :=
  { id := "m1", role := "user", content := "hello", conversation_id := "c1",
    part_id := "p1", part_name := "Guardian", user_id := "u", embedding := some [0] }

/-- The formatted search result produced for `msgRow0` under a constant
distance operator returning 2. -/
def simMsg0 : SimilarMessage :=
  { id := "m1", role := "user", content := "hello", conversation_id := "c1",
    part_id := "p1", part_name := "Guardian", similarity_score := 1 - 2 }

/-! ## Theorems -/

/-! ### String helper lemmas -/

/-- A string with a non-empty head extended on the right is never empty. -/
theorem append_ne_empty {p : String} (a : String) (hp : p.data ≠ []) : p ++ a ≠ "" := by
  intro h
  have hd := congrArg String.data h
  rw [String.data_append] at hd
  exact hp (List.append_eq_nil.mp hd).1

/-- Two strings with distinct head characters stay distinct under any
right extensions. -/
theorem append_ne_append {c d : Char} (hcd : c ≠ d) {p q : String} (a b : String)
    (hp : p.data.head? = some c) (hq : q.data.head? = some d) : p ++ a ≠ q ++ b := by
  intro h
  have hd := congrArg String.data h
  rw [String.data_append, String.data_append] at hd
  cases hp2 : p.data with
  | nil => rw [hp2] at hp; exact Option.noConfusion hp
  | cons x xs =>
    cases hq2 : q.data with
    | nil => rw [hq2] at hq; exact Option.noConfusion hq
    | cons y ys =>
      rw [hp2] at hp
      rw [hq2] at hq
      rw [hp2, hq2] at hd
      simp only [List.cons_append, List.cons.injEq] at hd
      have hx : x = c := by simpa using hp
      have hy : y = d := by simpa using hq
      exact hcd (hx ▸ hy ▸ hd.1)

/-- A right-extended string with head `c` differs from any string with a
different head `d`. -/
theorem append_ne_str {c d : Char} (hcd : c ≠ d) {p t : String} (a : String)
    (hp : p.data.head? = some c) (ht : t.data.head? = some d) : p ++ a ≠ t := by
  intro h
  have hd := congrArg String.data h
  rw [String.data_append] at hd
  cases hp2 : p.data with
  | nil => rw [hp2] at hp; exact Option.noConfusion hp
  | cons x xs =>
    cases ht2 : t.data with
    | nil => rw [ht2] at ht; exact Option.noConfusion ht
    | cons y ys =>
      rw [hp2] at hp
      rw [ht2] at ht
      rw [hp2, ht2] at hd
      simp only [List.cons_append, List.cons.injEq] at hd
      have hx : x = c := by simpa using hp
      have hy : y = d := by simpa using ht
      exact hcd (hx ▸ hy ▸ hd.1)

/-- Elimination form of `append_ne_append` (equation first, so the
implicit strings are known before the head computations are checked). -/
theorem app_head_elim {c d : Char} (hcd : c ≠ d) {p q a b : String} (h : p ++ a = q ++ b)
    (hp : p.data.head? = some c) (hq : q.data.head? = some d) : False :=
  append_ne_append hcd a b hp hq h

/-- Elimination form of `append_ne_str`. -/
theorem str_head_elim {c d : Char} (hcd : c ≠ d) {p t a : String} (h : p ++ a = t)
    (hp : p.data.head? = some c) (ht : t.data.head? = some d) : False :=
  append_ne_str hcd a hp ht h

/-- A string starting with a non-empty fixed piece is non-empty. -/
theorem error_prefixed_ne_empty (pre s : String) (hp : pre.length ≠ 0) : pre ++ s ≠ "" := by
  intro h
  have hl := congrArg String.length h
  rw [String.length_append] at hl
  have h0 : ("" : String).length = 0 := rfl
  rw [h0] at hl
  omega

/-! ### Claim C1 -/

/-- Claim C1, counterexample: with the encoder library unavailable,
`generate_embedding` does **not** fail — it returns the placeholder
all-zero vector of dimension 384, exactly what the claim rules out. -/
theorem c1_counterexample :
    generate_embedding embedding_manager .libMissing "hello"
      = .ok (List.replicate 384 0) := rfl

/-- Claim C1, amended: when the encoder **library** is missing,
`generate_embedding` (and the batch `generate_embeddings`) returns
all-zero placeholder vectors of dimension D instead of failing; the
provider fails explicitly only when the library is present but the model
fails to load or the encode call raises. -/
theorem c1_zero_vector_fallback (em : EmbeddingManager) (text msg e : String)
    (encode : String → Except String (List Rat)) (henc : encode text = .error e) :
    generate_embedding em .libMissing text = .ok (List.replicate em.embedding_dim 0)
    ∧ generate_embeddings em .libMissing [text] = .ok [List.replicate em.embedding_dim 0]
    ∧ generate_embedding em (.loadFailed msg) text
        = .error ("Error generating embedding: Failed to load embedding model: " ++ msg)
    ∧ generate_embedding em (.loaded encode) text
        = .error ("Error generating embedding: " ++ e) := by
  refine ⟨rfl, rfl, rfl, ?_⟩
  simp [generate_embedding, henc]

/-- Witness for `c1_zero_vector_fallback` at concrete inputs. -/
theorem c1_zero_vector_fallback_witness :
    generate_embedding embedding_manager .libMissing "t"
      = .ok (List.replicate embedding_manager.embedding_dim 0)
    ∧ generate_embeddings embedding_manager .libMissing ["t"]
      = .ok [List.replicate embedding_manager.embedding_dim 0]
    ∧ generate_embedding embedding_manager (.loadFailed "m") "t"
      = .error ("Error generating embedding: Failed to load embedding model: " ++ "m")
    ∧ generate_embedding embedding_manager (.loaded fun _ => .error "boom") "t"
      = .error ("Error generating embedding: " ++ "boom") :=
  c1_zero_vector_fallback embedding_manager "t" "m" "boom" (fun _ => .error "boom") rfl

/-! ### Claim C2 -/

/-- Claim C2, counterexample: a 200 response whose JSON body is the bare
empty string is a malformed payload for which `chat_with_part` returns
the **empty** string, not a non-empty fallback. -/
theorem c2_counterexample :
    chat_with_part true (.response 200 (.ok (.jstr ""))) part0 [] "Hi" = "" := rfl

/-- Claim C2, amended: `chat_with_part` is total (never raises) and
returns a non-empty fallback string on every transport error, on every
non-success HTTP status, and on every body whose JSON parse fails; a
successfully parsed 200 payload, however, is returned as extracted or
stringified text, which can be empty when the payload (or its
`generated_text` field) is itself an empty string. -/
theorem c2_fallback_nonempty (part : PartDict) (history : List MsgDict)
    (msg e m : String) (status : Nat) (body : Except String JVal) (api : ApiOutcome)
    (hstatus : status ≠ 200) :
    (chat_with_part false api part history msg
        = "Error: requests library not available for API calls"
      ∧ chat_with_part false api part history msg ≠ "")
    ∧ (chat_with_part true (.transportError e) part history msg = "Error: " ++ e
      ∧ chat_with_part true (.transportError e) part history msg ≠ "")
    ∧ (chat_with_part true (.response status body) part history msg
        = "Error: Failed to generate response (Status code: " ++ toString status ++ ")"
      ∧ chat_with_part true (.response status body) part history msg ≠ "")
    ∧ (chat_with_part true (.response 200 (.error m)) part history msg = "Error: " ++ m
      ∧ chat_with_part true (.response 200 (.error m)) part history msg ≠ "") := by
  have herr : ∀ s : String, "Error: " ++ s ≠ "" := by
    intro s
    exact error_prefixed_ne_empty "Error: " s (by decide)
  have h3 : chat_with_part true (.response status body) part history msg
      = "Error: Failed to generate response (Status code: " ++ toString status ++ ")" := by
    simp [chat_with_part, generate_response, hstatus]
  have h1 : chat_with_part false api part history msg
      = "Error: requests library not available for API calls" := rfl
  refine ⟨⟨h1, ?_⟩, ⟨rfl, herr e⟩, ⟨h3, ?_⟩, ⟨rfl, herr m⟩⟩
  · rw [h1]; decide
  · rw [h3]
    refine error_prefixed_ne_empty _ _ ?_
    rw [String.length_append]
    have hbase :
        0 < ("Error: Failed to generate response (Status code: " : String).length := by decide
    omega

/-- Witness for `c2_fallback_nonempty` at concrete inputs. -/
theorem c2_fallback_nonempty_witness :
    (chat_with_part false (.transportError "net down") part0 [] "Hi"
        = "Error: requests library not available for API calls"
      ∧ chat_with_part false (.transportError "net down") part0 [] "Hi" ≠ "")
    ∧ (chat_with_part true (.transportError "net down") part0 [] "Hi"
        = "Error: " ++ "net down"
      ∧ chat_with_part true (.transportError "net down") part0 [] "Hi" ≠ "")
    ∧ (chat_with_part true (.response 503 (.ok .jnull)) part0 [] "Hi"
        = "Error: Failed to generate response (Status code: " ++ toString 503 ++ ")"
      ∧ chat_with_part true (.response 503 (.ok .jnull)) part0 [] "Hi" ≠ "")
    ∧ (chat_with_part true (.response 200 (.error "bad json")) part0 [] "Hi"
        = "Error: " ++ "bad json"
      ∧ chat_with_part true (.response 200 (.error "bad json")) part0 [] "Hi" ≠ "") :=
  c2_fallback_nonempty part0 [] "Hi" "net down" "bad json" 503 (.ok .jnull)
    (.transportError "net down") (by decide)

/-! ### Claim C5 -/

/-- Claim C5, confirmed: `add_message` with empty content returns the
validation failure and leaves the message table unchanged — nothing is
persisted. -/
theorem c5_empty_content_rejected (ea la ra : Bool) (env : EncoderEnv) (api : ApiOutcome)
    (part : PartDict) (cid : String) (db : List MessageRec) :
    add_message ea la ra env api part cid db ""
      = (.badRequest "Message cannot be empty", db) := rfl

/-! ### Claim C4 -/

/-- Claim C4, counterexample: with the generation subsystem disabled
(`LLM_AVAILABLE = False`), `add_message` persists **and returns** a
fallback assistant reply alongside the user message, contradicting "no
assistant reply persisted or returned". -/
theorem c4_counterexample :
    add_message false false false .libMissing (.transportError "down") part0 "c1" [] "Hello"
      = (.created
          { conversation_id := "c1", role := "user", content := "Hello", embedding := none }
          { conversation_id := "c1", role := "part", content := chat_unavailable_text,
            embedding := none },
         [{ conversation_id := "c1", role := "user", content := "Hello", embedding := none },
          { conversation_id := "c1", role := "part", content := chat_unavailable_text,
            embedding := none }]) := rfl

/-- Claim C4, amended: with the generation subsystem disabled,
`add_message` still succeeds without raising, returning the persisted
user message **together with** a persisted fallback reply of role
`"part"` whose content is the fixed unavailable-service text. -/
theorem c4_generation_disabled (ea ra : Bool) (env : EncoderEnv) (api : ApiOutcome)
    (part : PartDict) (cid : String) (db : List MessageRec) (content : String)
    (h : content ≠ "") :
    add_message ea false ra env api part cid db content
      = (.created
          { conversation_id := cid, role := "user", content := content,
            embedding := attach_embedding ea env content }
          { conversation_id := cid, role := "part", content := chat_unavailable_text,
            embedding := attach_embedding ea env chat_unavailable_text },
         db ++ [{ conversation_id := cid, role := "user", content := content,
                  embedding := attach_embedding ea env content }]
            ++ [{ conversation_id := cid, role := "part", content := chat_unavailable_text,
                  embedding := attach_embedding ea env chat_unavailable_text }]) := by
  have hb : (content == "") = false := beq_eq_false_iff_ne.mpr h
  simp [add_message, hb]

/-- Witness for `c4_generation_disabled` at concrete inputs. -/
theorem c4_generation_disabled_witness :
    add_message false false false .libMissing (.transportError "x") part0 "c2" [] "Hi"
      = (.created
          { conversation_id := "c2", role := "user", content := "Hi",
            embedding := attach_embedding false .libMissing "Hi" }
          { conversation_id := "c2", role := "part", content := chat_unavailable_text,
            embedding := attach_embedding false .libMissing chat_unavailable_text },
         [] ++ [{ conversation_id := "c2", role := "user", content := "Hi",
                  embedding := attach_embedding false .libMissing "Hi" }]
            ++ [{ conversation_id := "c2", role := "part", content := chat_unavailable_text,
                  embedding := attach_embedding false .libMissing chat_unavailable_text }]) :=
  c4_generation_disabled false false .libMissing (.transportError "x") part0 "c2" [] "Hi"
    (by decide)

/-! ### Claim C8 -/

/-- Claim C8, counterexample: the assistant turn persisted by
`add_message` has role `"part"`, not `"assistant"` — so created message
roles are not contained in `{user, assistant}`. -/
theorem c8_counterexample :
    ((add_message false true false .libMissing (.transportError "t") part0 "c9" [] "Hey").2.map
        (fun m => m.role) = ["user", "part"])
    ∧ ("part" : String) ≠ "assistant" := ⟨rfl, by decide⟩

/-- Claim C8, amended: every message created by `add_message` has role
`"user"` or `"part"`, and the persisted assistant turn always has role
`"part"`. -/
theorem c8_message_roles (ea la ra : Bool) (env : EncoderEnv) (api : ApiOutcome)
    (part : PartDict) (cid : String) (db : List MessageRec) (content : String)
    (h : content ≠ "") :
    (∀ m ∈ (add_message ea la ra env api part cid db content).2,
        m ∈ db ∨ m.role = "user" ∨ m.role = "part")
    ∧ ∀ u p, (add_message ea la ra env api part cid db content).1
        = AddMessageResult.created u p → u.role = "user" ∧ p.role = "part" := by
  have hb : (content == "") = false := beq_eq_false_iff_ne.mpr h
  constructor
  · intro m hm
    simp only [add_message, hb, Bool.false_eq_true, if_false] at hm
    rcases List.mem_append.mp hm with hm1 | hm1
    · rcases List.mem_append.mp hm1 with hm2 | hm2
      · exact Or.inl hm2
      · right; left
        rw [List.mem_singleton.mp hm2]
    · right; right
      rw [List.mem_singleton.mp hm1]
  · intro u p hup
    simp only [add_message, hb, Bool.false_eq_true, if_false,
      AddMessageResult.created.injEq] at hup
    rw [← hup.1, ← hup.2]
    exact ⟨rfl, rfl⟩

/-- Witness for `c8_message_roles` at concrete inputs. -/
theorem c8_message_roles_witness :
    (∀ m ∈ (add_message false false false .libMissing (.transportError "t") part0 "c9" []
        "Hey there").2, m ∈ ([] : List MessageRec) ∨ m.role = "user" ∨ m.role = "part")
    ∧ ∀ u p, (add_message false false false .libMissing (.transportError "t") part0 "c9" []
        "Hey there").1 = AddMessageResult.created u p → u.role = "user" ∧ p.role = "part" :=
  c8_message_roles false false false .libMissing (.transportError "t") part0 "c9" []
    "Hey there" (by decide)

/-! ### Claim C3 -/

/-- Claim C3, counterexample: with two non-empty attribute descriptions
(`role` and `description`), the endpoint stores a **single** row keyed
by the fixed aspect `"personality"` — no row keyed by an attribute name
— and a single embedding failure fails the whole request instead of
being skipped. -/
theorem c3_counterexample :
    ((generate_personality_vectors embedding_manager (.loaded fun _ => .ok [1]) true part0
        "p1" []).2.map (fun r => r.aspect) = ["personality"])
    ∧ (generate_personality_vectors embedding_manager (.loaded fun _ => .error "boom") true
        part0 "p1" [{ part_id := "p1", aspect := "personality", embedding := [1] }]
        = (.error "Failed to generate embeddings: Error generating embedding: boom",
           [{ part_id := "p1", aspect := "personality", embedding := [1] }])) :=
  ⟨rfl, rfl⟩

/-- Updating the embedding of a row does not change whether it matches
the personality key. -/
theorem isPersonalityRow_set_embedding (pid : String) (emb : List Rat)
    (r : PersonalityVectorRow) :
    isPersonalityRow pid { r with embedding := emb } = isPersonalityRow pid r := rfl

/-- `update_first_personality` preserves the number of rows matching the
personality key. -/
theorem countP_update_first (pid : String) (emb : List Rat)
    (db : List PersonalityVectorRow) :
    (update_first_personality pid emb db).countP (isPersonalityRow pid)
      = db.countP (isPersonalityRow pid) := by
  induction db with
  | nil => rfl
  | cons r rs ih =>
    by_cases hr : isPersonalityRow pid r = true
    · simp [update_first_personality, hr, List.countP_cons, isPersonalityRow_set_embedding]
    · simp only [Bool.not_eq_true] at hr
      simp [update_first_personality, hr, List.countP_cons, ih]

/-- Claim C3, amended: `generate_personality_vectors` upserts exactly one
row keyed `(part_id, "personality")` regardless of the attribute set —
running it twice still yields exactly one such row — and an embedding
failure fails the whole request with an error response, leaving the
stored rows unchanged. -/
theorem c3_personality_upsert (em : EmbeddingManager) (part : PartDict) (pid : String)
    (db : List PersonalityVectorRow) (env : EncoderEnv) (emb : List Rat) (msg : String)
    (hcount : db.countP (isPersonalityRow pid) ≤ 1) :
    (get_part_embedding em env part = .ok emb →
      ((generate_personality_vectors em env true part pid db).2.countP
          (isPersonalityRow pid) = 1
        ∧ (generate_personality_vectors em env true part pid
            ((generate_personality_vectors em env true part pid db).2)).2.countP
              (isPersonalityRow pid) = 1))
    ∧ (get_part_embedding em env part = .error msg →
        generate_personality_vectors em env true part pid db
          = (.error ("Failed to generate embeddings: " ++ msg), db)) := by
  constructor
  · intro hok
    have key : ∀ d : List PersonalityVectorRow, d.countP (isPersonalityRow pid) ≤ 1 →
        (generate_personality_vectors em env true part pid d).2.countP
          (isPersonalityRow pid) = 1 := by
      intro d hd
      by_cases hany : d.any (isPersonalityRow pid) = true
      · have hpos : 0 < d.countP (isPersonalityRow pid) :=
          List.countP_pos_iff.mpr (List.any_eq_true.mp hany)
        simp [generate_personality_vectors, hok, hany, countP_update_first]
        omega
      · have hz : d.countP (isPersonalityRow pid) = 0 := by
          rw [List.countP_eq_zero]
          intro a ha hpa
          exact hany (List.any_eq_true.mpr ⟨a, ha, hpa⟩)
        simp only [Bool.not_eq_true] at hany
        simp [generate_personality_vectors, hok, hany, List.countP_append, hz,
          List.countP_cons, isPersonalityRow]
    have h1 := key db hcount
    exact ⟨h1, key _ (le_of_eq h1)⟩
  · intro herr
    simp [generate_personality_vectors, herr]

/-- Witness for `c3_personality_upsert` at concrete inputs. -/
theorem c3_personality_upsert_witness :
    ((generate_personality_vectors embedding_manager (.loaded fun _ => .ok [1]) true part0
        "p1" []).2.countP (isPersonalityRow "p1") = 1)
    ∧ ((generate_personality_vectors embedding_manager (.loaded fun _ => .ok [1]) true part0
        "p1" ((generate_personality_vectors embedding_manager (.loaded fun _ => .ok [1])
          true part0 "p1" []).2)).2.countP (isPersonalityRow "p1") = 1) :=
  (c3_personality_upsert embedding_manager part0 "p1" [] (.loaded fun _ => .ok [1]) [1] "m"
    (by decide)).1 rfl

/-! ### Claim C6 -/

/-- A limited distance-ordered query result is sorted by ascending
distance. -/
theorem pairwise_order_take {α : Type} (l : List (RankedRow α)) (limit : Nat) :
    ((order_by_distance l).take limit).Pairwise distLE := by
  have hp : (List.insertionSort distLE l).Pairwise distLE :=
    List.sorted_insertionSort distLE l
  exact hp.sublist (List.take_sublist limit _)

/-- Membership in a limited distance-ordered query result implies
membership in the ranked input. -/
theorem mem_order_take {α : Type} {r : RankedRow α} {l : List (RankedRow α)} {limit : Nat}
    (h : r ∈ (order_by_distance l).take limit) : r ∈ l :=
  (List.perm_insertionSort distLE l).mem_iff.mp ((List.take_sublist limit _).subset h)

/-- Every ranked row carries the distance computed from its own
embedding and the query vector. -/
theorem mem_rank_rows {α : Type} {dist : List Rat → List Rat → Rat} {qv : List Rat}
    {rows : List (VectorRow α)} {r : RankedRow α} (h : r ∈ rank_rows dist qv rows) :
    r.distance = dist r.embedding qv := by
  rcases List.mem_filterMap.mp h with ⟨v, _, hmap⟩
  cases he : v.embedding with
  | none => rw [he] at hmap; exact Option.noConfusion hmap
  | some e =>
    rw [he] at hmap
    have hv := Option.some.inj hmap
    rw [← hv]

/-- Claim C6, confirmed: on both storage backends
`query_vector_similarity` returns records each carrying a `distance`
field equal to the distance between the record's embedding and the query
vector, listed in non-decreasing distance order; the same ascending
order holds for the similar-message search, whose formatted results are
consequently non-increasing in `similarity_score`. -/
theorem c6_ascending_distance {α : Type} (using_supabase : Bool)
    (dist : List Rat → List Rat → Rat) (accessible : α → Bool) (rows : List (VectorRow α))
    (qv : List Rat) (limit : Nat) (uid : String) (mrows : List MsgJoinRow) :
    (query_vector_similarity using_supabase dist accessible rows qv limit).Pairwise distLE
    ∧ (∀ r ∈ query_vector_similarity using_supabase dist accessible rows qv limit,
        r.distance = dist r.embedding qv)
    ∧ (find_similar_ranked dist uid mrows qv limit).Pairwise distLE
    ∧ (find_similar_messages dist uid mrows qv limit).Pairwise
        (fun a b => b.similarity_score ≤ a.similarity_score) := by
  refine ⟨?_, ?_, ?_, ?_⟩
  · cases using_supabase
    · exact pairwise_order_take _ _
    · exact pairwise_order_take _ _
  · intro r hr
    cases using_supabase
    · exact mem_rank_rows (mem_order_take hr)
    · exact mem_rank_rows (mem_order_take hr)
  · exact pairwise_order_take _ _
  · refine List.pairwise_map.mpr ?_
    exact (pairwise_order_take _ _).imp (fun hab => sub_le_sub_left hab 1)

/-- Witness for `c6_ascending_distance` at concrete inputs. -/
theorem c6_ascending_distance_witness :
    ({ payload := (), embedding := [0], distance := 5 } : RankedRow Unit).distance
      = (5 : Rat) := by
  have h := (c6_ascending_distance false (fun _ _ => (5 : Rat)) (fun _ => true)
      [{ payload := (), embedding := some [0] }] [0] 3 "u" []).2.1
      { payload := (), embedding := [0], distance := 5 } (by decide)
  exact h

/-! ### Claim C10 -/

/-- Claim C10, confirmed: every similar-message result's
`similarity_score` equals exactly 1 minus the backend distance of its
ranked row, and is negative whenever that distance exceeds 1. -/
theorem c10_similarity_score (dist : List Rat → List Rat → Rat) (uid : String)
    (rows : List MsgJoinRow) (qv : List Rat) (limit : Nat) :
    ∀ x ∈ find_similar_messages dist uid rows qv limit,
      ∃ r ∈ find_similar_ranked dist uid rows qv limit,
        x = format_similar_message r ∧ x.similarity_score = 1 - r.distance
        ∧ (1 < r.distance → x.similarity_score < 0) := by
  intro x hx
  rcases List.mem_map.mp hx with ⟨r, hr, hxr⟩
  refine ⟨r, hr, hxr.symm, ?_, ?_⟩
  · rw [← hxr]
    rfl
  · intro hd
    rw [← hxr]
    exact sub_neg.mpr hd

/-- Witness for `c10_similarity_score` at concrete inputs: a backend
distance of 2 yields the negative similarity score `1 - 2 = -1`. -/
theorem c10_similarity_score_witness : simMsg0.similarity_score < 0 := by
  have hfm : find_similar_messages (fun _ _ => (2 : Rat)) "u" [msgRow0] [0] 5
      = [simMsg0] := rfl
  have hx : simMsg0 ∈ find_similar_messages (fun _ _ => (2 : Rat)) "u" [msgRow0] [0] 5 := by
    rw [hfm]
    exact List.mem_singleton.mpr rfl
  obtain ⟨r, hr, _, _, hneg⟩ :=
    c10_similarity_score (fun _ _ => (2 : Rat)) "u" [msgRow0] [0] 5 simMsg0 hx
  apply hneg
  have hlist : find_similar_ranked (fun _ _ => (2 : Rat)) "u" [msgRow0] [0] 5
      = [{ payload := msgRow0, embedding := [0], distance := 2 }] := rfl
  rw [hlist] at hr
  rw [List.mem_singleton.mp hr]
  norm_num

/-! ### Claim C9 -/

/-- Unfolding: the empty pattern matches only the empty string. -/
theorem likeMatch_nil (s : List Char) : likeMatch [] s = s.isEmpty := by
  simp [likeMatch]

/-- Unfolding: a leading `%` against the empty string. -/
theorem likeMatch_pct_nil (ps : List Char) : likeMatch ('%' :: ps) [] = likeMatch ps [] := by
  simp [likeMatch]

/-- Unfolding: a leading `%` either matches nothing or absorbs one
character. -/
theorem likeMatch_pct_cons (ps : List Char) (c : Char) (s : List Char) :
    likeMatch ('%' :: ps) (c :: s)
      = (likeMatch ps (c :: s) || likeMatch ('%' :: ps) s) := by
  simp [likeMatch]

/-- Unfolding: a literal pattern character fails on the empty string. -/
theorem likeMatch_lit_nil (p : Char) (hp1 : p ≠ '%') (ps : List Char) :
    likeMatch (p :: ps) [] = false := by
  simp [likeMatch, hp1]

/-- Unfolding: a literal pattern character matches case-insensitively. -/
theorem likeMatch_lit_cons (p : Char) (hp1 : p ≠ '%') (hp2 : p ≠ '_') (ps : List Char)
    (c : Char) (s : List Char) :
    likeMatch (p :: ps) (c :: s) = ((p.toLower == c.toLower) && likeMatch ps s) := by
  simp [likeMatch, hp1, hp2]

/-- The pattern `%` alone matches every string. -/
theorem likeMatch_pct_singleton : ∀ s, likeMatch ['%'] s = true := by
  intro s
  induction s with
  | nil => simp [likeMatch]
  | cons c cs ih => simp [likeMatch_pct_cons, ih]

/-- A wildcard-free pattern followed by `%` matches exactly the strings
it case-insensitively starts. -/
theorem likeMatch_append_pct (q : List Char) (hq : ∀ c ∈ q, c ≠ '%' ∧ c ≠ '_') :
    ∀ s : List Char, (likeMatch (q ++ ['%']) s = true
      ↔ List.IsPrefix (q.map Char.toLower) (s.map Char.toLower)) := by
  induction q with
  | nil =>
    intro s
    simp only [List.nil_append, List.map_nil]
    constructor
    · intro _
      exact List.nil_prefix
    · intro _
      exact likeMatch_pct_singleton s
  | cons c q ih =>
    intro s
    have hc := hq c (List.mem_cons_self c q)
    cases s with
    | nil =>
      rw [List.cons_append, likeMatch_lit_nil c hc.1]
      simp
    | cons d s =>
      rw [List.cons_append, likeMatch_lit_cons c hc.1 hc.2]
      simp only [List.map_cons, List.cons_prefix_cons, Bool.and_eq_true, beq_iff_eq]
      rw [ih (fun x hx => hq x (List.mem_cons_of_mem c hx)) s]

/-- A pattern starting with `%` matches a string exactly when the rest
of the pattern matches one of its suffixes. -/
theorem likeMatch_pct_iff (ps : List Char) :
    ∀ s : List Char, (likeMatch ('%' :: ps) s = true
      ↔ ∃ t, List.IsSuffix t s ∧ likeMatch ps t = true) := by
  intro s
  induction s with
  | nil =>
    rw [likeMatch_pct_nil]
    constructor
    · intro h
      exact ⟨[], List.suffix_rfl, h⟩
    · rintro ⟨t, ht, hm⟩
      rw [List.suffix_nil.mp ht] at hm
      exact hm
  | cons c cs ih =>
    rw [likeMatch_pct_cons]
    constructor
    · intro h
      rw [Bool.or_eq_true] at h
      rcases h with h1 | h2
      · exact ⟨c :: cs, List.suffix_rfl, h1⟩
      · rcases ih.mp h2 with ⟨t, ht, hm⟩
        exact ⟨t, ht.trans (List.suffix_cons c cs), hm⟩
    · rintro ⟨t, ht, hm⟩
      rcases List.suffix_cons_iff.mp ht with h1 | h2
      · rw [h1] at hm
        rw [Bool.or_eq_true]
        exact Or.inl hm
      · rw [Bool.or_eq_true]
        exact Or.inr (ih.mpr ⟨t, h2, hm⟩)

/-- The `ILIKE '%query%'` predicate used by the text search branch is,
for wildcard-free queries, exactly case-insensitive substring
containment. -/
theorem ilike_substring (query content : String)
    (hq : ∀ c ∈ query.data, c ≠ '%' ∧ c ≠ '_') :
    ilike content ("%" ++ query ++ "%") = true
      ↔ List.IsInfix (query.data.map Char.toLower) (content.data.map Char.toLower) := by
  unfold ilike
  have hpat : ("%" ++ query ++ "%").data = '%' :: (query.data ++ ['%']) := by
    rw [String.data_append, String.data_append]
    simp [show ("%" : String).data = ['%'] from rfl]
  rw [hpat, likeMatch_pct_iff]
  constructor
  · rintro ⟨t, ht, hm⟩
    have hp := (likeMatch_append_pct query.data hq t).mp hm
    exact List.infix_iff_prefix_suffix.mpr ⟨t.map Char.toLower, hp, ht.map Char.toLower⟩
  · intro hinf
    rcases List.infix_iff_prefix_suffix.mp hinf with ⟨u, hpre, hsuf⟩
    obtain ⟨w, hw⟩ := hsuf
    refine ⟨content.data.drop w.length, List.drop_suffix _ _, ?_⟩
    apply (likeMatch_append_pct query.data hq _).mpr
    rw [List.map_drop, ← hw, List.drop_left]
    exact hpre

/-- Claim C9, confirmed: with the embedding subsystem unavailable, a
`'semantic'` search request silently takes the lexical branch — its
response is identical to a `'text'`-mode request, a success carrying the
lexically matched conversations with no error and no marker of the
degraded mode; and for wildcard-free queries the lexical match predicate
is exactly case-insensitive substring containment. -/
theorem c9_semantic_fallback (env : EncoderEnv) (dist : List Rat → List Rat → Rat)
    (uid query : String) (pf : Option String) (limit : Nat) (convs : List ConvRec)
    (msgs : List MessageRec) (hquery : query ≠ "") :
    (search_conversations false env dist uid "semantic" query pf limit convs msgs
      = search_conversations false env dist uid "text" query pf limit convs msgs)
    ∧ (search_conversations false env dist uid "semantic" query pf limit convs msgs
      = .ok (convs.filter fun c =>
          (text_search_conv_ids uid query pf limit convs msgs).contains c.id))
    ∧ ((∀ c ∈ query.data, c ≠ '%' ∧ c ≠ '_') → ∀ m : MessageRec,
        (ilike m.content ("%" ++ query ++ "%") = true
          ↔ List.IsInfix (query.data.map Char.toLower) (m.content.data.map Char.toLower))) := by
  have hb : (query == "") = false := beq_eq_false_iff_ne.mpr hquery
  refine ⟨?_, ?_, ?_⟩
  · simp [search_conversations, hb]
  · simp [search_conversations, hb]
  · intro hwild m
    exact ilike_substring query m.content hwild

/-- Witness for `c9_semantic_fallback` at concrete inputs. -/
theorem c9_semantic_fallback_witness :
    (search_conversations false .libMissing (fun _ _ => (0 : Rat)) "u" "semantic" "stress"
        none 10 [] [] =
      search_conversations false .libMissing (fun _ _ => (0 : Rat)) "u" "text" "stress"
        none 10 [] [])
    ∧ (search_conversations false .libMissing (fun _ _ => (0 : Rat)) "u" "semantic" "stress"
        none 10 [] [] =
      .ok (List.filter (fun c =>
          (text_search_conv_ids "u" "stress" none 10 [] []).contains c.id) []))
    ∧ ((∀ c ∈ ("stress" : String).data, c ≠ '%' ∧ c ≠ '_') → ∀ m : MessageRec,
        (ilike m.content ("%" ++ "stress" ++ "%") = true
          ↔ List.IsInfix (("stress" : String).data.map Char.toLower)
              (m.content.data.map Char.toLower))) :=
  c9_semantic_fallback .libMissing (fun _ _ => (0 : Rat)) "u" "stress" none 10 [] []
    (by decide)

/-! ### Claim C7 -/

/-- Claim C7, counterexample: for a part whose `role` attribute is
present but empty, the assembled prompt still contains the line
`"Role: "` — the line for an empty attribute is **not** omitted. -/
theorem c7_counterexample :
    partEmptyRole.role = some ""
    ∧ ("Role: " ++ pyOptStr (some "")) ∈ part_description partEmptyRole := ⟨rfl, by decide⟩

/-- Membership in a conditional singleton block forces equality with its
element. -/
theorem mem_if_empty_else {b : Bool} {x y : String} (h : y ∈ if b then [] else [x]) :
    y = x := by
  cases b
  · simp at h
    exact h
  · simp at h

/-- No string extending a head character other than the guideline heads
occurs among the fixed guideline lines. -/
theorem not_mem_guidelines {p : String} {c : Char} (a : String)
    (hp : p.data.head? = some c) (hG : c ≠ 'G') (hS : c ≠ 'S') (h1 : c ≠ '1')
    (h2 : c ≠ '2') (h3 : c ≠ '3') (h4 : c ≠ '4') (h5 : c ≠ '5') (hpne : p.data ≠ []) :
    p ++ a ∉ guideline_lines := by
  intro h
  simp only [guideline_lines, List.mem_cons, List.not_mem_nil, or_false] at h
  rcases h with h|h|h|h|h|h|h|h|h|h|h|h|h
  exacts [append_ne_empty a hpne h, str_head_elim hG h hp rfl,
    str_head_elim h1 h hp rfl, str_head_elim h2 h hp rfl, str_head_elim h3 h hp rfl,
    str_head_elim h4 h hp rfl, str_head_elim h5 h hp rfl, append_ne_empty a hpne h,
    str_head_elim hS h hp rfl, str_head_elim h1 h hp rfl, str_head_elim h2 h hp rfl,
    str_head_elim h3 h hp rfl, append_ne_empty a hpne h]

/-- A line whose head character differs from every base and guideline
head, and which does not occur among the characteristic lines, does not
occur in the part description at all. -/
theorem attr_not_mem_description (part : PartDict) (c : Char) {pfx a : String}
    (hmem : pfx ++ a ∈ part_description part)
    (hp : pfx.data.head? = some c) (hY : c ≠ 'Y') (hR : c ≠ 'R') (hD : c ≠ 'D')
    (hG : c ≠ 'G') (hS : c ≠ 'S') (h1 : c ≠ '1') (h2 : c ≠ '2') (h3 : c ≠ '3')
    (h4 : c ≠ '4') (h5 : c ≠ '5')
    (hchar : pfx ++ a ∉ characteristic_lines part) : False := by
  have hpne : pfx.data ≠ [] := by
    intro hnil
    rw [hnil] at hp
    exact Option.noConfusion hp
  rcases List.mem_append.mp hmem with h12 | hg
  · rcases List.mem_append.mp h12 with hbase | hc
    · simp only [base_description, List.mem_cons, List.not_mem_nil, or_false] at hbase
      rcases hbase with h | h | h
      · exact app_head_elim hY h hp rfl
      · exact app_head_elim hR h hp rfl
      · exact app_head_elim hD h hp rfl
    · exact hchar hc
  · exact not_mem_guidelines a hp hG hS h1 h2 h3 h4 h5 hpne hg

/-- Claim C7, amended: in the assembled prompt the `Feelings:`,
`Beliefs:`, `Triggers:` and `Needs:` lines appear exactly when the
corresponding attribute list is non-empty, but the `Role:` and
`Description:` lines are always present — even for an empty or missing
attribute value — so the claimed omission does not extend to them. -/
theorem c7_attribute_lines (part : PartDict) (history : List MsgDict)
    (user_message : String) :
    (create_part_prompt part history user_message
      = String.intercalate "\n" (part_description part) ++ "\n\n" ++
          String.intercalate "\n" (conversation_text part history user_message))
    ∧ ("Role: " ++ pyOptStr part.role) ∈ part_description part
    ∧ ("Description: " ++ pyOptStr part.description) ∈ part_description part
    ∧ (("Feelings: " ++ String.intercalate ", " part.feelings) ∈ part_description part
        ↔ part.feelings ≠ [])
    ∧ (("Beliefs: " ++ String.intercalate ", " part.beliefs) ∈ part_description part
        ↔ part.beliefs ≠ [])
    ∧ (("Triggers: " ++ String.intercalate ", " part.triggers) ∈ part_description part
        ↔ part.triggers ≠ [])
    ∧ (("Needs: " ++ String.intercalate ", " part.needs) ∈ part_description part
        ↔ part.needs ≠ []) := by
  have isEmpty_false : ∀ l : List String, l ≠ [] → l.isEmpty = false := by
    intro l hl
    cases l with
    | nil => exact absurd rfl hl
    | cons a t => rfl
  refine ⟨rfl, ?_, ?_, ?_, ?_, ?_, ?_⟩
  · simp [part_description, base_description]
  · simp [part_description, base_description]
  · constructor
    · intro hmem hne
      refine attr_not_mem_description part 'F' hmem rfl (by decide) (by decide)
        (by decide) (by decide) (by decide) (by decide) (by decide) (by decide) (by decide)
        (by decide) ?_
      intro hc
      unfold characteristic_lines at hc
      rw [hne] at hc
      simp only [List.isEmpty_nil, if_true, List.nil_append] at hc
      rcases List.mem_append.mp hc with hbt | hn
      · rcases List.mem_append.mp hbt with hb | ht
        · exact app_head_elim (show 'F' ≠ 'B' by decide) (mem_if_empty_else hb) rfl rfl
        · exact app_head_elim (show 'F' ≠ 'T' by decide) (mem_if_empty_else ht) rfl rfl
      · exact app_head_elim (show 'F' ≠ 'N' by decide) (mem_if_empty_else hn) rfl rfl
    · intro hne
      unfold part_description characteristic_lines
      rw [isEmpty_false _ hne]
      simp
  · constructor
    · intro hmem hne
      refine attr_not_mem_description part 'B' hmem rfl (by decide) (by decide)
        (by decide) (by decide) (by decide) (by decide) (by decide) (by decide) (by decide)
        (by decide) ?_
      intro hc
      unfold characteristic_lines at hc
      rw [hne] at hc
      simp only [List.isEmpty_nil, if_true, List.append_nil, List.nil_append] at hc
      rcases List.mem_append.mp hc with hft | hn
      · rcases List.mem_append.mp hft with hf | ht
        · exact app_head_elim (show 'B' ≠ 'F' by decide) (mem_if_empty_else hf) rfl rfl
        · exact app_head_elim (show 'B' ≠ 'T' by decide) (mem_if_empty_else ht) rfl rfl
      · exact app_head_elim (show 'B' ≠ 'N' by decide) (mem_if_empty_else hn) rfl rfl
    · intro hne
      unfold part_description characteristic_lines
      rw [isEmpty_false _ hne]
      simp
  · constructor
    · intro hmem hne
      refine attr_not_mem_description part 'T' hmem rfl (by decide) (by decide)
        (by decide) (by decide) (by decide) (by decide) (by decide) (by decide) (by decide)
        (by decide) ?_
      intro hc
      unfold characteristic_lines at hc
      rw [hne] at hc
      simp only [List.isEmpty_nil, if_true, List.append_nil, List.nil_append] at hc
      rcases List.mem_append.mp hc with hfb | hn
      · rcases List.mem_append.mp hfb with hf | hb
        · exact app_head_elim (show 'T' ≠ 'F' by decide) (mem_if_empty_else hf) rfl rfl
        · exact app_head_elim (show 'T' ≠ 'B' by decide) (mem_if_empty_else hb) rfl rfl
      · exact app_head_elim (show 'T' ≠ 'N' by decide) (mem_if_empty_else hn) rfl rfl
    · intro hne
      unfold part_description characteristic_lines
      rw [isEmpty_false _ hne]
      simp
  · constructor
    · intro hmem hne
      refine attr_not_mem_description part 'N' hmem rfl (by decide) (by decide)
        (by decide) (by decide) (by decide) (by decide) (by decide) (by decide) (by decide)
        (by decide) ?_
      intro hc
      unfold characteristic_lines at hc
      rw [hne] at hc
      simp only [List.isEmpty_nil, if_true, List.append_nil, List.nil_append] at hc
      rcases List.mem_append.mp hc with hfb | ht
      · rcases List.mem_append.mp hfb with hf | hb
        · exact app_head_elim (show 'N' ≠ 'F' by decide) (mem_if_empty_else hf) rfl rfl
        · exact app_head_elim (show 'N' ≠ 'B' by decide) (mem_if_empty_else hb) rfl rfl
      · exact app_head_elim (show 'N' ≠ 'T' by decide) (mem_if_empty_else ht) rfl rfl
    · intro hne
      unfold part_description characteristic_lines
      rw [isEmpty_false _ hne]
      simp

/-- Witness for `c7_attribute_lines` at concrete inputs. -/
theorem c7_attribute_lines_witness :
    ("Feelings: " ++ String.intercalate ", " part0.feelings) ∈ part_description part0 :=
  (c7_attribute_lines part0 [] "").2.2.2.1.mpr (by decide)

end IFS
